import Mathlib

/-!
Shallow embedding of the semantic-release Slack notification plugin
(`test-monorepo/packages/semantic-release-slack-plugin`): the JavaScript
entry point `index.js` and the TypeScript variant `src/index.ts`.

JavaScript value semantics used throughout:
an absent (`undefined`/`null`) string field is `Option.none`; JS truthiness
of a string is "present and nonempty"; interpolating `undefined` into a
template literal yields the text "undefined", interpolating `null` yields
"null"; `a || b` on strings falls through on falsy (absent or empty) `a`.
-/

namespace SlackPlugin

/-- JS truthiness of a possibly-absent string: `undefined`, `null` and `""` are falsy. -/
def jsTruthy : Option String → Bool
  | none => false
  | some s => !(s == "")

/-- JS `a || d` for a possibly-absent string `a`: keeps `a` when truthy, else `d`. -/
def jsOr (o : Option String) (d : String) : String :=
  if jsTruthy o then o.getD d else d

/-- Template-literal interpolation of a possibly-`undefined` string. -/
def showUndef : Option String → String
  | none => "undefined"
  | some s => s

/-- Template-literal interpolation of a possibly-`null` string. -/
def showNull : Option String → String
  | none => "null"
  | some s => s

/-- Whether `pat` occurs at the start of `l` (character lists). -/
def listStarts : List Char → List Char → Bool
  | [], _ => true
  | _ :: _, [] => false
  | a :: as, b :: bs => a == b && listStarts as bs

/-- Whether `pat` occurs as a contiguous run anywhere in `l` (character lists). -/
def listHasSub (pat : List Char) : List Char → Bool
  | [] => pat.isEmpty
  | l@(_ :: rest) => listStarts pat l || listHasSub pat rest

/-- JS `hay.includes(pat)`: substring containment. -/
def strIncludes (hay pat : String) : Bool :=
  listHasSub pat.data hay.data

/-- One release artifact supplied by semantic-release (`Release`): both the
name and the url are optional. -/
structure Release where
  name : Option String
  url : Option String
deriving Repr, DecidableEq

/-- A rendered link: target url and clickable label. -/
structure Link where
  url : String
  text : String
deriving Repr, DecidableEq

/-- The slice of the semantic-release context that the plugin reads:
`options.executorContext?.projectName`, `nextRelease?.version`,
`context.releases`, and the environment variables it consumes. -/
structure Ctx where
  projectName : Option String
  version : Option String
  releases : Option (List Release)
  envSlackBotToken : Option String
  envSlackChannelId : Option String
  envGithubServerUrl : Option String
  envGithubRepository : Option String
  envGithubRunId : Option String
deriving Repr, DecidableEq

/-- Outcome of one chat-service call (`chat.postMessage` / `chat.update`):
either a resolved response carrying the message timestamp `ts`, or a
rejected promise carrying an error. -/
inductive ChatResult where
  | ok (ts : String)
  | err (e : String)
deriving Repr, DecidableEq

namespace TS

/-- The status union type of `src/index.ts`. -/
inductive Status where
  | pending
  | success
  | failure
deriving Repr, DecidableEq

/-- One entry of `statusConfigs` in `src/index.ts`. -/
structure StatusConfig where
  emoji : String
  text : String
  color : String
  message : String
deriving Repr, DecidableEq

/-- The `statusConfigs` record of `src/index.ts`, already specialised to the
interpolated `packageName` and `version`. -/
def statusConfigs (packageName version : String) : Status → StatusConfig
  | Status.pending =>
    { emoji := ":hourglass:"
      text := "In Progress"
      color := "#3AA3E3"
      message := "Releasing *" ++ packageName ++ "* `v" ++ version ++ "`" }
  | Status.success =>
    { emoji := ":white_check_mark:"
      text := "Success"
      color := "#36a64f"
      message := "Released *" ++ packageName ++ "* `v" ++ version ++ "`" }
  | Status.failure =>
    { emoji := ":x:"
      text := "Failed"
      color := "#E01E5A"
      message := "Release failed for *" ++ packageName ++ "*" }

/-- `extractPrNumber` of `src/index.ts`: `message.match(/\(#(\d+)\)$/)`,
returning the digit group when the message ends in `(#digits)`, else null. -/
def extractPrNumber (message : String) : Option String :=
  match message.data.reverse with
  | ')' :: rest =>
    let digits := rest.takeWhile Char.isDigit
    if digits.isEmpty then none
    else
      match rest.drop digits.length with
      | '#' :: '(' :: _ => some (String.mk digits.reverse)
      | _ => none
  | _ => none

/-- The `workflowUrl` template literal of `src/index.ts`; absent environment
variables interpolate as "undefined". -/
def workflowUrl (ctx : Ctx) : String :=
  showUndef ctx.envGithubServerUrl ++ "/" ++ showUndef ctx.envGithubRepository
    ++ "/actions/runs/" ++ showUndef ctx.envGithubRunId

/-- The filter predicate `release.url && release.name` of `src/index.ts`:
keeps a release only when both fields are truthy. -/
def hasNameAndUrl (r : Release) : Bool :=
  jsTruthy r.url && jsTruthy r.name

/-- The map step of `src/index.ts`: a release becomes a link to its url,
with the label shortened to "npm" when the name contains "npm". -/
def renderLink (r : Release) : Link :=
  { url := r.url.getD ""
    text := if strIncludes (r.name.getD "") "npm" then "npm" else r.name.getD "" }

/-- `context.releases.reverse().filter(...).map(...)` of `src/index.ts`. -/
def releaseLinks (rs : List Release) : List Link :=
  (rs.reverse.filter hasNameAndUrl).map renderLink

/-- The attachment built by `createMessageAttachment` in `src/index.ts`:
the color, the plain-text fallback, the first section field (emoji +
headline), the second section field (the joined links line) together with
the link list it renders, and the PR section text. -/
structure Attachment where
  color : String
  fallback : String
  headlineText : String
  linksText : String
  links : List Link
  prText : String
deriving Repr, DecidableEq

/-- `createMessageAttachment` of `src/index.ts`. The JS `.reverse()` call
mutates `context.releases` in place, so the function returns both the
attachment and the context as it stands afterwards. -/
def createMessageAttachment (ctx : Ctx) (commitTitle : String) (status : Status) :
    Attachment × Ctx :=
  let version := jsOr ctx.version ""
  let packageName := jsOr ctx.projectName ""
  let statusConfig := statusConfigs packageName version status
  let wfUrl := workflowUrl ctx
  let prNumber := extractPrNumber commitTitle
  let prLink := "https://github.com/" ++ showUndef ctx.envGithubRepository
    ++ "/pull/" ++ showNull prNumber
  let baseLinks : List Link := [{ url := wfUrl, text := "workflow" }]
  let (links, releasesAfter) :=
    match status, ctx.releases with
    | Status.success, some rs => (releaseLinks rs ++ baseLinks, some rs.reverse)
    | _, _ => (baseLinks, ctx.releases)
  let attachment : Attachment :=
    { color := statusConfig.color
      fallback := packageName ++ " v" ++ version ++ " - " ++ statusConfig.text
      headlineText := statusConfig.emoji ++ " " ++ statusConfig.message
      linksText := "🔗 " ++ String.intercalate " | "
        (links.map fun l => "<" ++ l.url ++ "|" ++ l.text ++ ">")
      links := links
      prText := "*PR:* <" ++ prLink ++ "|" ++ commitTitle ++ ">" }
  (attachment, { ctx with releases := releasesAfter })

/-- The module-level mutable state of `src/index.ts`: `slackClient` (a
`WebClient` remembered together with the token it was constructed from, or
`none` while still `undefined`), `messageTs` and `channelId`. -/
structure St where
  slackClient : Option (Option String)
  messageTs : Option String
  channelId : Option String
deriving Repr, DecidableEq

/-- The module state of `src/index.ts` before `prepare` has run. -/
def initSt : St :=
  { slackClient := none, messageTs := none, channelId := none }

/-- An outbound Slack call made by `src/index.ts`. -/
inductive Call where
  | post (channel : Option String) (attach : Attachment)
  | update (channel : Option String) (ts : Option String) (attach : Attachment)
deriving Repr, DecidableEq

/-- Observable outcome of running one lifecycle operation of `src/index.ts`:
the module state afterwards, the outbound calls made, the `logger` lines
emitted, and the error that escaped the operation (`none` when it returned
normally). -/
structure OpResult where
  state : St
  calls : List Call
  logs : List String
  thrown : Option String
deriving Repr, DecidableEq

/-- `prepare` of `src/index.ts`: builds the pending attachment, constructs a
client from `SLACK_BOT_TOKEN` and stores `SLACK_RELEASE_CHANNEL_ID`
unconditionally, posts, and stores the returned timestamp. There is no
guard and no try/catch, so a rejected post propagates. -/
def prepare (chat : ChatResult) (s : St) (ctx : Ctx) (commitTitle : String) : OpResult :=
  let attach := (createMessageAttachment ctx commitTitle Status.pending).1
  let s1 : St :=
    { s with slackClient := some ctx.envSlackBotToken, channelId := ctx.envSlackChannelId }
  match chat with
  | ChatResult.ok ts =>
    { state := { s1 with messageTs := some ts }
      calls := [Call.post s1.channelId attach]
      logs := ["Posting release start notification to Slack...",
               "Posted to Slack, message timestamp: " ++ ts]
      thrown := none }
  | ChatResult.err e =>
    { state := s1
      calls := [Call.post s1.channelId attach]
      logs := ["Posting release start notification to Slack..."]
      thrown := some e }

/-- `success` of `src/index.ts`: no session guard and no try/catch. When
`slackClient` is still `undefined`, the property access `slackClient.chat`
throws a TypeError before any call; when the update rejects, the rejection
propagates. -/
def success (chat : ChatResult) (s : St) (ctx : Ctx) (commitTitle : String) : OpResult :=
  let attach := (createMessageAttachment ctx commitTitle Status.success).1
  match s.slackClient with
  | none =>
    { state := s
      calls := []
      logs := ["Posting release success notification to Slack..."]
      thrown := some "TypeError: Cannot read properties of undefined (reading 'chat')" }
  | some _ =>
    match chat with
    | ChatResult.ok _ =>
      { state := s
        calls := [Call.update s.channelId s.messageTs attach]
        logs := ["Posting release success notification to Slack...",
                 "Successfully updated Slack message with release information"]
        thrown := none }
    | ChatResult.err e =>
      { state := s
        calls := [Call.update s.channelId s.messageTs attach]
        logs := ["Posting release success notification to Slack..."]
        thrown := some e }

/-- `fail` of `src/index.ts`: same shape as `success` with the failure
attachment. -/
def fail (chat : ChatResult) (s : St) (ctx : Ctx) (commitTitle : String) : OpResult :=
  let attach := (createMessageAttachment ctx commitTitle Status.failure).1
  match s.slackClient with
  | none =>
    { state := s
      calls := []
      logs := ["Posting release failure notification to Slack..."]
      thrown := some "TypeError: Cannot read properties of undefined (reading 'chat')" }
  | some _ =>
    match chat with
    | ChatResult.ok _ =>
      { state := s
        calls := [Call.update s.channelId s.messageTs attach]
        logs := ["Posting release failure notification to Slack...",
                 "Successfully updated Slack message with failure information"]
        thrown := none }
    | ChatResult.err e =>
      { state := s
        calls := [Call.update s.channelId s.messageTs attach]
        logs := ["Posting release failure notification to Slack..."]
        thrown := some e }

end TS

namespace JS

/-- A Slack block produced by `createMessageBlocks` in `index.js`: either the
leading section block with its two mrkdwn fields, or the trailing context
block holding the joined links line. -/
inductive Block where
  | sectionBlock (field1 field2 : String)
  | contextBlock (text : String)
deriving Repr, DecidableEq

/-- The `switch (status)` of `index.js`, yielding `(statusEmoji, statusText)`;
unknown statuses fall through to the default arm. -/
def statusDisplay (status : String) : String × String :=
  if status == "pending" then (":hourglass:", "In Progress")
  else if status == "success" then (":white_check_mark:", "Success")
  else if status == "failure" then (":x:", "Failed")
  else (":grey_question:", "Unknown")

/-- The `workflowUrl` of `index.js`: built only when all three GitHub
environment variables are truthy, else the empty string. -/
def workflowUrl (ctx : Ctx) : String :=
  if jsTruthy ctx.envGithubServerUrl && jsTruthy ctx.envGithubRepository
      && jsTruthy ctx.envGithubRunId then
    showUndef ctx.envGithubServerUrl ++ "/" ++ showUndef ctx.envGithubRepository
      ++ "/actions/runs/" ++ showUndef ctx.envGithubRunId
  else ""

/-- The `releaseLinks` array of `createMessageBlocks` in `index.js`: release
links (original order, only for a truthy version on success, only releases
with truthy url and name) followed by the workflow link when available. -/
def releaseLinksOf (ctx : Ctx) (status : String) (version : Option String) : List String :=
  let fromReleases :=
    if status == "success" && jsTruthy version then
      match ctx.releases with
      | some rs =>
        (rs.filter fun r => jsTruthy r.url && jsTruthy r.name).map
          fun r => "<" ++ r.url.getD "" ++ "|" ++ r.name.getD "" ++ ">"
      | none => []
    else []
  let wf := workflowUrl ctx
  fromReleases ++ (if wf == "" then [] else ["<" ++ wf ++ "|Workflow Run>"])

/-- `createMessageBlocks` of `index.js`: the section block (package/version
headline and status field), then the context block with the joined release
links, dropped entirely when there are none (`.filter(Boolean)`). -/
def createMessageBlocks (ctx : Ctx) (status : String) (version : Option String) :
    List Block :=
  let packageName := ctx.projectName
  let (statusEmoji, statusText) := statusDisplay status
  let releaseLinks := releaseLinksOf ctx status version
  Block.sectionBlock
      ("*" ++ showUndef packageName ++ "* "
        ++ (if jsTruthy version then "v" ++ version.getD "" else ""))
      (statusEmoji ++ " " ++ statusText)
    :: (if releaseLinks.isEmpty then []
        else [Block.contextBlock (String.intercalate " | " releaseLinks)])

/-- `createStartMessageBlocks` of `index.js`: pending, no version argument. -/
def createStartMessageBlocks (ctx : Ctx) : List Block :=
  createMessageBlocks ctx "pending" none

/-- `createSuccessMessageBlocks` of `index.js`. -/
def createSuccessMessageBlocks (ctx : Ctx) : List Block :=
  createMessageBlocks ctx "success" ctx.version

/-- `createFailureMessageBlocks` of `index.js`: failure, no version argument. -/
def createFailureMessageBlocks (ctx : Ctx) : List Block :=
  createMessageBlocks ctx "failure" none

/-- The module-level mutable state of `index.js`: the client (token it was
constructed from, or `none` while `undefined`), `messageTs` and `channelId`. -/
structure St where
  slackClient : Option String
  messageTs : Option String
  channelId : Option String
deriving Repr, DecidableEq

/-- The module state of `index.js` before `prepare` has run. -/
def initSt : St :=
  { slackClient := none, messageTs := none, channelId := none }

/-- An outbound Slack call made by `index.js`: blocks plus the plain-text
fallback passed as `text`. -/
inductive Call where
  | post (channel : Option String) (blocks : List Block) (text : String)
  | update (channel : Option String) (ts : Option String) (blocks : List Block)
      (text : String)
deriving Repr, DecidableEq

/-- The `text` fallback carried by an outbound call of `index.js`. -/
def callText : Call → String
  | Call.post _ _ t => t
  | Call.update _ _ _ t => t

/-- Observable outcome of one lifecycle operation of `index.js`. -/
structure OpResult where
  state : St
  calls : List Call
  logs : List String
  thrown : Option String
deriving Repr, DecidableEq

/-- `prepare` of `index.js`: stores `channelId` first, then returns with a
log when the token or the channel id is missing; otherwise constructs the
client and posts inside try/catch, storing the returned timestamp on
resolve and logging the error on reject. The `context.env = {...env, ...}`
reassignment copies the same values back and is omitted as a no-op. -/
def prepare (chat : ChatResult) (s : St) (ctx : Ctx) : OpResult :=
  let blocks := createStartMessageBlocks ctx
  let slackToken := ctx.envSlackBotToken
  let s1 : St := { s with channelId := ctx.envSlackChannelId }
  let packageName := jsOr ctx.projectName "package"
  if !(jsTruthy slackToken) then
    { state := s1
      calls := []
      logs := ["No Slack token found in environment variables (SLACK_BOT_TOKEN). Skipping Slack notification."]
      thrown := none }
  else if !(jsTruthy s1.channelId) then
    { state := s1
      calls := []
      logs := ["No Slack channel ID found in environment variables (SLACK_RELEASE_CHANNEL_ID). Skipping Slack notification."]
      thrown := none }
  else
    let s2 : St := { s1 with slackClient := some (slackToken.getD "") }
    match chat with
    | ChatResult.ok ts =>
      { state := { s2 with messageTs := some ts }
        calls := [Call.post s2.channelId blocks ("Release process started for " ++ packageName)]
        logs := ["Posting release start notification to Slack...",
                 "Posted to Slack, message timestamp: " ++ ts]
        thrown := none }
    | ChatResult.err _ =>
      { state := s2
        calls := [Call.post s2.channelId blocks ("Release process started for " ++ packageName)]
        logs := ["Posting release start notification to Slack...",
                 "Error posting to Slack:"]
        thrown := none }

/-- `success` of `index.js`: skips with a log when the client was never
initialised or no message timestamp is stored; otherwise updates the stored
message inside try/catch. The two `console.log` debug lines are omitted. -/
def success (chat : ChatResult) (s : St) (ctx : Ctx) : OpResult :=
  let blocks := createSuccessMessageBlocks ctx
  let packageName := jsOr ctx.projectName "package"
  if s.slackClient.isNone || !(jsTruthy s.messageTs) then
    { state := s
      calls := []
      logs := ["Slack client not initialized or no message to update. Skipping Slack notification."]
      thrown := none }
  else
    match chat with
    | ChatResult.ok _ =>
      { state := s
        calls := [Call.update s.channelId s.messageTs blocks
          ("Release successful for " ++ packageName ++ " v" ++ showUndef ctx.version)]
        logs := ["Posting release success notification to Slack...",
                 "Successfully updated Slack message with release information"]
        thrown := none }
    | ChatResult.err _ =>
      { state := s
        calls := [Call.update s.channelId s.messageTs blocks
          ("Release successful for " ++ packageName ++ " v" ++ showUndef ctx.version)]
        logs := ["Posting release success notification to Slack...",
                 "Error updating Slack message:"]
        thrown := none }

/-- `fail` of `index.js`: same guard and try/catch shape as `success`, with
the failure blocks and text. -/
def fail (chat : ChatResult) (s : St) (ctx : Ctx) : OpResult :=
  let blocks := createFailureMessageBlocks ctx
  let packageName := jsOr ctx.projectName "package"
  if s.slackClient.isNone || !(jsTruthy s.messageTs) then
    { state := s
      calls := []
      logs := ["Slack client not initialized or no message to update. Skipping Slack notification."]
      thrown := none }
  else
    match chat with
    | ChatResult.ok _ =>
      { state := s
        calls := [Call.update s.channelId s.messageTs blocks
          ("Release failed for " ++ packageName)]
        logs := ["Posting release failure notification to Slack...",
                 "Successfully updated Slack message with failure information"]
        thrown := none }
    | ChatResult.err _ =>
      { state := s
        calls := [Call.update s.channelId s.messageTs blocks
          ("Release failed for " ++ packageName)]
        logs := ["Posting release failure notification to Slack...",
                 "Error updating Slack message:"]
        thrown := none }

end JS

end SlackPlugin

namespace SlackPlugin

/-! Concrete contexts used by witnesses and counterexamples. -/

/-- A fully-populated context: credentials, GitHub workflow variables, a
resolved version and two release artifacts (an npm one last-produced
first in supply order; a cdn one). -/
def ctxFull : Ctx :=
  { projectName := some "pkg-a"
    version := some "1.2.0"
    releases := some
      [{ name := some "npm package (@scope/pkg-a)", url := some "https://npm.example/pkg-a" },
       { name := some "cdn", url := some "https://cdn.example/pkg-a" }]
    envSlackBotToken := some "T"
    envSlackChannelId := some "C"
    envGithubServerUrl := some "https://github.com"
    envGithubRepository := some "Weetbix/nx-monorepo-example"
    envGithubRunId := some "42" }

/-- `ctxFull` with an empty artifact list. -/
def ctxNoReleases : Ctx :=
  { ctxFull with releases := some [] }

/-- `ctxFull` with both Slack credentials absent from the environment. -/
def ctxNoCreds : Ctx :=
  { ctxFull with envSlackBotToken := none, envSlackChannelId := none }

/-- `ctxFull` with the version still unresolved. -/
def ctxNoVersion : Ctx :=
  { ctxFull with version := none }

/-! Helper lemmas about the TypeScript attachment builder. -/

/-- On success with a present releases array, the attachment's link list is
the release links followed by the workflow link, and the context's releases
array has been reversed in place. -/
theorem TS.attach_success_eq (ctx : Ctx) (t : String) (rs : List Release)
    (hr : ctx.releases = some rs) :
    ((TS.createMessageAttachment ctx t TS.Status.success).1).links
        = TS.releaseLinks rs ++ [{ url := TS.workflowUrl ctx, text := "workflow" }] ∧
      (TS.createMessageAttachment ctx t TS.Status.success).2
        = { ctx with releases := some rs.reverse } := by
  simp [TS.createMessageAttachment, hr]

/-- For pending and failure the link list is just the workflow link and the
releases array is untouched. -/
theorem TS.attach_not_success_eq (ctx : Ctx) (t : String) (status : TS.Status)
    (hs : status ≠ TS.Status.success) :
    ((TS.createMessageAttachment ctx t status).1).links
        = [{ url := TS.workflowUrl ctx, text := "workflow" }] ∧
      (TS.createMessageAttachment ctx t status).2 = ctx := by
  obtain ⟨p, v, rel, e1, e2, e3, e4, e5⟩ := ctx
  cases status with
  | pending => cases rel <;> simp [TS.createMessageAttachment]
  | success => exact absurd rfl hs
  | failure => cases rel <;> simp [TS.createMessageAttachment]

/-- The fallback text does not depend on the releases branch. -/
theorem TS.attach_fallback_eq (ctx : Ctx) (t : String) (status : TS.Status) :
    ((TS.createMessageAttachment ctx t status).1).fallback
      = jsOr ctx.projectName "" ++ " v" ++ jsOr ctx.version "" ++ " - "
          ++ (TS.statusConfigs (jsOr ctx.projectName "") (jsOr ctx.version "") status).text := by
  cases status <;> cases hrel : ctx.releases <;>
    simp [TS.createMessageAttachment, hrel]

/-- Merging the two leading string literals of the PR section text. -/
theorem prLitMerge (s : String) :
    "*PR:* <" ++ ("https://github.com/" ++ s) = "*PR:* <https://github.com/" ++ s := by
  rw [← String.append_assoc]
  congr 1

/-- The PR section text does not depend on the status or the releases
branch: it is always rendered, from the commit title and the extracted PR
number (interpolated as "null" when absent). -/
theorem TS.attach_prText_eq (ctx : Ctx) (t : String) (status : TS.Status) :
    ((TS.createMessageAttachment ctx t status).1).prText
      = "*PR:* <https://github.com/" ++ showUndef ctx.envGithubRepository
          ++ "/pull/" ++ showNull (TS.extractPrNumber t) ++ "|" ++ t ++ ">" := by
  cases status <;> cases hrel : ctx.releases <;>
    simp [TS.createMessageAttachment, hrel, String.append_assoc, prLitMerge]

/-- The npm release artifact of `ctxFull`. -/
def relNpm : Release :=
  { name := some "npm package (@scope/pkg-a)", url := some "https://npm.example/pkg-a" }

/-- The cdn release artifact of `ctxFull`. -/
def relCdn : Release :=
  { name := some "cdn", url := some "https://cdn.example/pkg-a" }

/-- C9: in `src/index.ts`, building the success message calls `.reverse()` on
`context.releases`, which mutates the orchestrator's array in place: after
one construction the context holds the artifacts reversed, so a second
construction from the same context renders its release links from the
original, un-reversed order. -/
theorem c9_success_reverses_releases_in_place (ctx : Ctx) (t : String)
    (rs : List Release) (hr : ctx.releases = some rs) (hlen : 2 ≤ rs.length) :
    (TS.createMessageAttachment ctx t TS.Status.success).2.releases = some rs.reverse ∧
    ((TS.createMessageAttachment
        (TS.createMessageAttachment ctx t TS.Status.success).2 t TS.Status.success).1).links
      = (rs.filter TS.hasNameAndUrl).map TS.renderLink
          ++ [{ url := TS.workflowUrl ctx, text := "workflow" }] := by
  obtain ⟨h1, h2⟩ := TS.attach_success_eq ctx t rs hr
  refine ⟨by rw [h2], ?_⟩
  rw [h2]
  obtain ⟨h3, -⟩ :=
    TS.attach_success_eq { ctx with releases := some rs.reverse } t rs.reverse rfl
  rw [h3]
  simp [TS.releaseLinks, TS.workflowUrl]

/-- C9 witness at `ctxFull`, whose artifact list has two elements. -/
theorem c9_success_reverses_releases_in_place_witness :
    (TS.createMessageAttachment ctxFull "fix (#1)" TS.Status.success).2.releases
        = some [relNpm, relCdn].reverse ∧
    ((TS.createMessageAttachment
        (TS.createMessageAttachment ctxFull "fix (#1)" TS.Status.success).2
        "fix (#1)" TS.Status.success).1).links
      = ([relNpm, relCdn].filter TS.hasNameAndUrl).map TS.renderLink
          ++ [{ url := TS.workflowUrl ctxFull, text := "workflow" }] :=
  c9_success_reverses_releases_in_place ctxFull "fix (#1)" [relNpm, relCdn] rfl
    (by decide)

/-- C10: in the success message of `src/index.ts`, a kept artifact whose name
contains the substring "npm" is rendered with the label exactly "npm", and
any other kept artifact is rendered with its supplied name as the label. -/
theorem c10_npm_label_shortening (ctx : Ctx) (t : String) (rs : List Release)
    (hr : ctx.releases = some rs) (r : Release) (hmem : r ∈ rs)
    (n u : String) (hn : r.name = some n) (hu : r.url = some u)
    (hn0 : n ≠ "") (hu0 : u ≠ "") :
    (strIncludes n "npm" = true →
      ({ url := u, text := "npm" } : Link)
        ∈ ((TS.createMessageAttachment ctx t TS.Status.success).1).links) ∧
    (strIncludes n "npm" = false →
      ({ url := u, text := n } : Link)
        ∈ ((TS.createMessageAttachment ctx t TS.Status.success).1).links) := by
  obtain ⟨hlinks, -⟩ := TS.attach_success_eq ctx t rs hr
  have hkeep : TS.hasNameAndUrl r = true := by
    simp [TS.hasNameAndUrl, jsTruthy, hn, hu, hn0, hu0]
  have hmem2 : r ∈ rs.reverse.filter TS.hasNameAndUrl :=
    List.mem_filter.mpr ⟨List.mem_reverse.mpr hmem, hkeep⟩
  have hmap : TS.renderLink r ∈ TS.releaseLinks rs :=
    List.mem_map_of_mem TS.renderLink hmem2
  constructor
  · intro hinc
    have hre : TS.renderLink r = { url := u, text := "npm" } := by
      simp [TS.renderLink, hn, hu, hinc]
    rw [hlinks]
    exact List.mem_append_left _ (hre ▸ hmap)
  · intro hninc
    have hre : TS.renderLink r = { url := u, text := n } := by
      simp [TS.renderLink, hn, hu, hninc]
    rw [hlinks]
    exact List.mem_append_left _ (hre ▸ hmap)

/-- C10 witness: the npm-named artifact of `ctxFull` appears with label
"npm". -/
theorem c10_npm_label_shortening_witness :
    ({ url := "https://npm.example/pkg-a", text := "npm" } : Link)
      ∈ ((TS.createMessageAttachment ctxFull "fix (#1)" TS.Status.success).1).links :=
  (c10_npm_label_shortening ctxFull "fix (#1)" [relNpm, relCdn] rfl relNpm
    (by decide) "npm package (@scope/pkg-a)" "https://npm.example/pkg-a" rfl rfl
    (by decide) (by decide)).1 (by decide)

/-- C1 is false on `src/index.ts`: with an empty artifact list the success
message still renders a link entry (the workflow link), and the pending
message renders a link entry as well, although the claim allows links only
for success and none when the filtered list is empty. -/
theorem c1_links_counterexample :
    ((TS.createMessageAttachment ctxNoReleases "fix stuff" TS.Status.success).1).links
        = [{ url := "https://github.com/Weetbix/nx-monorepo-example/actions/runs/42",
             text := "workflow" }] ∧
    ((TS.createMessageAttachment ctxNoReleases "fix stuff" TS.Status.pending).1).links
        = [{ url := "https://github.com/Weetbix/nx-monorepo-example/actions/runs/42",
             text := "workflow" }] := by
  constructor <;> rfl

/-- C1 amended: the success link list of `src/index.ts` is the artifact list
reversed with every artifact lacking a name or lacking a URL dropped, each
mapped to its npm-shortened label, followed by a trailing workflow link;
and every status, not only success, renders a non-empty link list. -/
theorem c1_success_links_amended (ctx : Ctx) (t : String) (rs : List Release)
    (hr : ctx.releases = some rs) :
    ((TS.createMessageAttachment ctx t TS.Status.success).1).links
        = (rs.reverse.filter fun r => jsTruthy r.url && jsTruthy r.name).map TS.renderLink
            ++ [{ url := TS.workflowUrl ctx, text := "workflow" }] ∧
    ∀ status : TS.Status, ((TS.createMessageAttachment ctx t status).1).links ≠ [] := by
  refine ⟨?_, ?_⟩
  · rw [(TS.attach_success_eq ctx t rs hr).1]
    rfl
  · intro status
    rcases eq_or_ne status TS.Status.success with h | h
    · subst h
      rw [(TS.attach_success_eq ctx t rs hr).1]
      simp
    · rw [(TS.attach_not_success_eq ctx t status h).1]
      simp

/-- C1 witness at `ctxFull`: the reversed, filtered artifact links followed
by the workflow link; and the pending message's link list is non-empty. -/
theorem c1_success_links_amended_witness :
    ((TS.createMessageAttachment ctxFull "fix (#1)" TS.Status.success).1).links
        = ([relNpm, relCdn].reverse.filter fun r => jsTruthy r.url && jsTruthy r.name).map
              TS.renderLink
            ++ [{ url := TS.workflowUrl ctxFull, text := "workflow" }] ∧
    ((TS.createMessageAttachment ctxFull "fix (#1)" TS.Status.pending).1).links ≠ [] :=
  ⟨(c1_success_links_amended ctxFull "fix (#1)" [relNpm, relCdn] rfl).1,
   (c1_success_links_amended ctxFull "fix (#1)" [relNpm, relCdn] rfl).2 TS.Status.pending⟩

/-- C6 is false on the code: with a commit title carrying no PR suffix, the
PR line is still rendered, as a broken link ending in "/pull/null". -/
theorem c6_pr_line_counterexample :
    ((TS.createMessageAttachment ctxFull "refactor tests" TS.Status.pending).1).prText
      = "*PR:* <https://github.com/Weetbix/nx-monorepo-example/pull/null|refactor tests>" := by
  rfl

/-- C6 amended: the PR line of `src/index.ts` is always rendered, for every
status and context, labelled with the commit title; the link carries the
extracted PR number when the commit message ends in "(#digits)" and the
text "null" otherwise, never being omitted. -/
theorem c6_pr_line_always_rendered (ctx : Ctx) (t : String) (status : TS.Status) :
    ((TS.createMessageAttachment ctx t status).1).prText
      = "*PR:* <https://github.com/" ++ showUndef ctx.envGithubRepository
          ++ "/pull/" ++ showNull (TS.extractPrNumber t) ++ "|" ++ t ++ ">" :=
  TS.attach_prText_eq ctx t status

/-- C7 is false on `src/index.ts`: with the version still unresolved, the
pending headline renders a bare backquoted "v" placeholder instead of
omitting the version. -/
theorem c7_headline_counterexample :
    ((TS.createMessageAttachment ctxNoVersion "fix stuff" TS.Status.pending).1).headlineText
      = ":hourglass: Releasing *pkg-a* `v`" := by
  rfl

/-- The headline field of the first (section) block of a block list. -/
def JS.headlineOf : List JS.Block → Option String
  | JS.Block.sectionBlock f1 _ :: _ => some f1
  | _ => none

/-- C7 amended: in `index.js` the headline interpolates the package name and
renders "v" plus the version when the version is truthy, and interpolates
the empty string, omitting the version, when it is unknown; the TypeScript
variant instead renders a bare backquoted "v" placeholder (see the
counterexample). -/
theorem c7_headline_amended (ctx : Ctx) (status : String) (v : String) (hv : v ≠ "") :
    JS.headlineOf (JS.createMessageBlocks ctx status none)
        = some ("*" ++ showUndef ctx.projectName ++ "* ") ∧
    JS.headlineOf (JS.createMessageBlocks ctx status (some v))
        = some ("*" ++ showUndef ctx.projectName ++ "* " ++ ("v" ++ v)) := by
  constructor
  · simp [JS.createMessageBlocks, JS.headlineOf, jsTruthy]
  · simp [JS.createMessageBlocks, JS.headlineOf, jsTruthy, hv]

/-- C7 witness at `ctxFull` with version "1.2.0". -/
theorem c7_headline_amended_witness :
    JS.headlineOf (JS.createMessageBlocks ctxFull "pending" none) = some "*pkg-a* " ∧
    JS.headlineOf (JS.createMessageBlocks ctxFull "pending" (some "1.2.0"))
      = some ("*" ++ showUndef ctxFull.projectName ++ "* " ++ ("v" ++ "1.2.0")) :=
  ⟨(c7_headline_amended ctxFull "pending" "1.2.0" (by decide)).1,
   (c7_headline_amended ctxFull "pending" "1.2.0" (by decide)).2⟩

/-- A `src/index.ts` module state after a completed `prepare`. -/
def stReadyTS : TS.St :=
  { slackClient := some (some "T"), messageTs := some "111", channelId := some "C" }

/-- An `index.js` module state after a completed `prepare`. -/
def stReadyJS : JS.St :=
  { slackClient := some "T", messageTs := some "111", channelId := some "C" }

/-- C2 is false on `src/index.ts`: `success` and `fail` invoked in the
initial module state (no `prepare` before them) do not return normally,
they crash with a TypeError on the undefined client. -/
theorem c2_no_session_counterexample :
    (TS.success (ChatResult.ok "111") TS.initSt ctxFull "fix (#1)").thrown
        = some "TypeError: Cannot read properties of undefined (reading 'chat')" ∧
    (TS.fail (ChatResult.ok "111") TS.initSt ctxFull "fix (#1)").thrown
        = some "TypeError: Cannot read properties of undefined (reading 'chat')" :=
  ⟨rfl, rfl⟩

/-- C2 amended: in `index.js`, `success` and `fail` invoked without an
initialised client or without a stored message timestamp make no outbound
call, log the skip diagnostic and return normally; the TypeScript variant
crashes instead (see the counterexample). -/
theorem c2_skip_without_session_amended (chat : ChatResult) (s : JS.St) (ctx : Ctx)
    (h : s.slackClient = none ∨ jsTruthy s.messageTs = false) :
    ((JS.success chat s ctx).calls = [] ∧ (JS.success chat s ctx).thrown = none ∧
      "Slack client not initialized or no message to update. Skipping Slack notification."
        ∈ (JS.success chat s ctx).logs) ∧
    ((JS.fail chat s ctx).calls = [] ∧ (JS.fail chat s ctx).thrown = none ∧
      "Slack client not initialized or no message to update. Skipping Slack notification."
        ∈ (JS.fail chat s ctx).logs) := by
  have hguard : (s.slackClient.isNone || !(jsTruthy s.messageTs)) = true := by
    rcases h with h | h
    · simp [h]
    · simp [h]
  constructor <;> simp [JS.success, JS.fail, hguard]

/-- C2 witness: in the initial `index.js` module state, `success` and `fail`
make no outbound call. -/
theorem c2_skip_without_session_amended_witness :
    (JS.success (ChatResult.ok "1") JS.initSt ctxFull).calls = [] ∧
    (JS.fail (ChatResult.ok "1") JS.initSt ctxFull).calls = [] :=
  ⟨((c2_skip_without_session_amended (ChatResult.ok "1") JS.initSt ctxFull
      (Or.inl rfl)).1).1,
   ((c2_skip_without_session_amended (ChatResult.ok "1") JS.initSt ctxFull
      (Or.inl rfl)).2).1⟩

/-- C3 is false on `src/index.ts`: a rejected chat call propagates out of
each of the three operations (there is no try/catch). -/
theorem c3_propagation_counterexample :
    (TS.prepare (ChatResult.err "rate_limited") TS.initSt ctxFull "fix (#1)").thrown
        = some "rate_limited" ∧
    (TS.success (ChatResult.err "rate_limited") stReadyTS ctxFull "fix (#1)").thrown
        = some "rate_limited" ∧
    (TS.fail (ChatResult.err "rate_limited") stReadyTS ctxFull "fix (#1)").thrown
        = some "rate_limited" :=
  ⟨rfl, rfl, rfl⟩

/-- C3 amended: in `index.js` none of the three operations ever lets an
error escape, for any chat-service outcome; and whenever an operation made
its outbound call and the call rejected, the catch block records the
corresponding error diagnostic. The TypeScript variant propagates instead
(see the counterexample). -/
theorem c3_errors_swallowed_amended (chat : ChatResult) (s : JS.St) (ctx : Ctx)
    (e : String) :
    (JS.prepare chat s ctx).thrown = none ∧
    (JS.success chat s ctx).thrown = none ∧
    (JS.fail chat s ctx).thrown = none ∧
    ((JS.prepare (ChatResult.err e) s ctx).calls ≠ [] →
      "Error posting to Slack:" ∈ (JS.prepare (ChatResult.err e) s ctx).logs) ∧
    ((JS.success (ChatResult.err e) s ctx).calls ≠ [] →
      "Error updating Slack message:" ∈ (JS.success (ChatResult.err e) s ctx).logs) ∧
    ((JS.fail (ChatResult.err e) s ctx).calls ≠ [] →
      "Error updating Slack message:" ∈ (JS.fail (ChatResult.err e) s ctx).logs) := by
  refine ⟨?_, ?_, ?_, ?_, ?_, ?_⟩
  · simp only [JS.prepare]
    split
    · rfl
    split
    · rfl
    cases chat <;> rfl
  · simp only [JS.success]
    split
    · rfl
    cases chat <;> rfl
  · simp only [JS.fail]
    split
    · rfl
    cases chat <;> rfl
  · simp only [JS.prepare]
    split
    · intro h; simp at h
    split
    · intro h; simp at h
    intro h; simp
  · simp only [JS.success]
    split
    · intro h; simp at h
    intro h; simp
  · simp only [JS.fail]
    split
    · intro h; simp at h
    intro h; simp

/-- C3 witness: a rejected post in `index.js` `prepare` is swallowed and the
error diagnostic is logged. -/
theorem c3_errors_swallowed_amended_witness :
    (JS.prepare (ChatResult.err "boom") JS.initSt ctxFull).thrown = none ∧
    "Error posting to Slack:" ∈ (JS.prepare (ChatResult.err "boom") JS.initSt ctxFull).logs :=
  ⟨(c3_errors_swallowed_amended (ChatResult.err "boom") JS.initSt ctxFull "boom").1,
   (c3_errors_swallowed_amended (ChatResult.err "boom") JS.initSt ctxFull
      "boom").2.2.2.1 (by decide)⟩

/-- C4 is false on `src/index.ts`: `prepare` with both Slack credentials
absent from the environment still makes exactly one outbound post. -/
theorem c4_missing_creds_counterexample :
    ((TS.prepare (ChatResult.ok "111") TS.initSt ctxNoCreds "fix (#1)").calls).length
      = 1 := by
  rfl

/-- C4 amended: in `index.js`, `prepare` with a missing (or empty) token, or
with a token but a missing channel id, makes zero outbound calls, raises
nothing and logs the corresponding informational message; the TypeScript
variant posts regardless (see the counterexample). -/
theorem c4_prepare_guard_amended (chat : ChatResult) (s : JS.St) (ctx : Ctx) :
    (jsTruthy ctx.envSlackBotToken = false →
      (JS.prepare chat s ctx).calls = [] ∧ (JS.prepare chat s ctx).thrown = none ∧
      "No Slack token found in environment variables (SLACK_BOT_TOKEN). Skipping Slack notification."
        ∈ (JS.prepare chat s ctx).logs) ∧
    (jsTruthy ctx.envSlackBotToken = true → jsTruthy ctx.envSlackChannelId = false →
      (JS.prepare chat s ctx).calls = [] ∧ (JS.prepare chat s ctx).thrown = none ∧
      "No Slack channel ID found in environment variables (SLACK_RELEASE_CHANNEL_ID). Skipping Slack notification."
        ∈ (JS.prepare chat s ctx).logs) := by
  constructor
  · intro h
    simp [JS.prepare, h]
  · intro h1 h2
    simp [JS.prepare, h1, h2]

/-- C4 witness: `index.js` `prepare` without credentials makes no call. -/
theorem c4_prepare_guard_amended_witness :
    (JS.prepare (ChatResult.ok "1") JS.initSt ctxNoCreds).calls = [] :=
  ((c4_prepare_guard_amended (ChatResult.ok "1") JS.initSt ctxNoCreds).1 rfl).1

/-- C5 is false on `index.js`: the pending post's plain-text fallback is
"Release process started for pkg-a", not "pkg-a v1.2.0 - In Progress". -/
theorem c5_fallback_counterexample :
    (JS.prepare (ChatResult.ok "111") JS.initSt ctxFull).calls.map JS.callText
        = ["Release process started for pkg-a"] ∧
    "Release process started for pkg-a" ≠ "pkg-a v1.2.0 - In Progress" :=
  ⟨rfl, by decide⟩

/-- C5 amended: in `src/index.ts`, for every context with a resolved
(nonempty) version, every status's attachment carries the fallback
"packageName v<version> - <StatusLabel>", with labels "In Progress",
"Success" and "Failed"; the `index.js` variant sends a different fallback
text (see the counterexample). -/
theorem c5_fallback_amended (ctx : Ctx) (t : String) (v : String)
    (hv : ctx.version = some v) (hv0 : v ≠ "") :
    ((TS.createMessageAttachment ctx t TS.Status.pending).1).fallback
        = jsOr ctx.projectName "" ++ " v" ++ v ++ " - " ++ "In Progress" ∧
    ((TS.createMessageAttachment ctx t TS.Status.success).1).fallback
        = jsOr ctx.projectName "" ++ " v" ++ v ++ " - " ++ "Success" ∧
    ((TS.createMessageAttachment ctx t TS.Status.failure).1).fallback
        = jsOr ctx.projectName "" ++ " v" ++ v ++ " - " ++ "Failed" := by
  have hjs : jsOr ctx.version "" = v := by
    simp [jsOr, jsTruthy, hv, hv0]
  refine ⟨?_, ?_, ?_⟩ <;> rw [TS.attach_fallback_eq] <;> rw [hjs] <;> rfl

/-- C5 witness at `ctxFull`: the pending fallback is exactly
"pkg-a v1.2.0 - In Progress". -/
theorem c5_fallback_amended_witness :
    ((TS.createMessageAttachment ctxFull "fix (#1)" TS.Status.pending).1).fallback
      = jsOr ctxFull.projectName "" ++ " v" ++ "1.2.0" ++ " - " ++ "In Progress" :=
  (c5_fallback_amended ctxFull "fix (#1)" "1.2.0" rfl (by decide)).1

/-- Whether a call is an update against the stored channel and message
timestamp of the given `index.js` module state. -/
def JS.usesSession (s : JS.St) : JS.Call → Bool
  | JS.Call.update ch mts _ _ => ch == s.channelId && mts == s.messageTs
  | _ => false

/-- C8: `success` and `fail` leave the module state unchanged in both
implementations, every update they issue goes to the stored channel and
message timestamp, and a guarded `index.js` `prepare` whose post resolves
stores the returned timestamp as the message handle. -/
theorem c8_session_write_discipline (chat : ChatResult) (s : JS.St) (s2 : TS.St)
    (ctx : Ctx) (t ts : String)
    (htok : jsTruthy ctx.envSlackBotToken = true)
    (hch : jsTruthy ctx.envSlackChannelId = true) :
    (JS.success chat s ctx).state = s ∧
    (JS.fail chat s ctx).state = s ∧
    (TS.success chat s2 ctx t).state = s2 ∧
    (TS.fail chat s2 ctx t).state = s2 ∧
    ((JS.success chat s ctx).calls.all (JS.usesSession s)) = true ∧
    ((JS.fail chat s ctx).calls.all (JS.usesSession s)) = true ∧
    (JS.prepare (ChatResult.ok ts) s ctx).state.messageTs = some ts := by
  refine ⟨?_, ?_, ?_, ?_, ?_, ?_, ?_⟩
  · simp only [JS.success]
    split
    · rfl
    cases chat <;> rfl
  · simp only [JS.fail]
    split
    · rfl
    cases chat <;> rfl
  · simp only [TS.success]
    cases s2.slackClient <;> cases chat <;> rfl
  · simp only [TS.fail]
    cases s2.slackClient <;> cases chat <;> rfl
  · simp only [JS.success]
    split
    · rfl
    cases chat <;> simp [JS.usesSession]
  · simp only [JS.fail]
    split
    · rfl
    cases chat <;> simp [JS.usesSession]
  · simp [JS.prepare, htok, hch]

/-- C8 witness in a prepared `index.js` state with full credentials. -/
theorem c8_session_write_discipline_witness :
    (JS.success (ChatResult.ok "1") stReadyJS ctxFull).state = stReadyJS ∧
    (JS.prepare (ChatResult.ok "222") stReadyJS ctxFull).state.messageTs = some "222" :=
  ⟨(c8_session_write_discipline (ChatResult.ok "1") stReadyJS stReadyTS ctxFull
      "fix (#1)" "222" rfl rfl).1,
   (c8_session_write_discipline (ChatResult.ok "1") stReadyJS stReadyTS ctxFull
      "fix (#1)" "222" rfl rfl).2.2.2.2.2.2⟩

end SlackPlugin
